import Mathlib

/-!
Verification of the retry, validation, batching and pagination logic of
scripts/download.py (BGG XML API downloader).

The embedding keeps the source structure: the HTTP transport and the XML
parser are external collaborators and are passed in as oracles; every
other step is translated directly from the Python code.
-/

/-- Raw response body: a sequence of bytes. -/
abbrev Bytes := List Nat

/-- Exceptions raised by download.py, tagged with the payload the Python
exception carries: requests.exceptions.HTTPError(status_code),
ValueError(message) and xml.etree.ElementTree.ParseError(message). -/
inductive PyErr where
  | httpError (status : Nat)
  | valueError (msg : String)
  | parseError (msg : String)
  deriving Repr, DecidableEq

/-- Accumulate the numeric value of a list of decimal digit characters. -/
def digitsVal (acc : Nat) : List Char → Nat
  | [] => acc
  | c :: cs => digitsVal (acc * 10 + (c.toNat - Char.toNat ('0'))) cs

/-- Decimal-integer fragment of the Python builtin int() applied to a string:
optional surrounding whitespace, an optional sign, then one or more decimal
digits (digit-group underscores are not modelled). Returns none when Python
int() would raise ValueError. -/
def pyInt? (s : String) : Option Int :=
  let t := ((s.data.dropWhile Char.isWhitespace).reverse.dropWhile Char.isWhitespace).reverse
  match t with
  | [] => none
  | c :: rest =>
    if c = '-' then
      if !rest.isEmpty && rest.all Char.isDigit then some (-(digitsVal 0 rest : Int)) else none
    else if c = '+' then
      if !rest.isEmpty && rest.all Char.isDigit then some ((digitsVal 0 rest : Int)) else none
    else
      if (c :: rest).all Char.isDigit then some ((digitsVal 0 (c :: rest) : Int)) else none

/-- Message of the ValueError raised by Python int() on a bad literal. -/
def intErrMsg (s : String) : String :=
  "invalid literal for int() with base 10: " ++ s

/-- One outcome of session.get inside get_data: either a transport-level read
timeout (requests.exceptions.ReadTimeout) or a completed HTTP response with
its status code, its optional Retry-After header value, and its body. -/
inductive Outcome where
  | timeout
  | response (status : Nat) (retryAfter : Option String) (content : Bytes)
  deriving Repr

/-- Observable result of one get_data call: the returned bytes or the raised
exception, the sequence of time.sleep durations performed, and the number of
session.get calls issued. -/
structure GetResult where
  result : Except PyErr Bytes
  sleeps : List Int
  fetches : Nat
  deriving Repr

/-- The retry loop of get_data, translated from the Python while loop.

The transport oracle gives the outcome of the k-th session.get call.
fuel stands for retries + 1 - attempts, so the loop guard
attempts less-or-equal retries is exactly fuel greater than zero, and every
branch that executes attempts += 1 recurses with fuel - 1. calls counts the
session.get calls made so far, last is the content of the response variable
(initialised to the fresh empty requests.Response), sleeps accumulates the
time.sleep durations. Branches in source order: ReadTimeout, status 200
(break), status 202, status 429 (Retry-After header parsed by int() when
present, else the delay parameter), any other status raises HTTPError. -/
def getDataGo (transport : Nat → Outcome) (delay : Nat) :
    Nat → Nat → Bytes → List Int → GetResult
  | 0, calls, last, sleeps => { result := .ok last, sleeps := sleeps, fetches := calls }
  | fuel + 1, calls, last, sleeps =>
    match transport calls with
    | .timeout =>
      getDataGo transport delay fuel (calls + 1) last (sleeps ++ [(delay : Int)])
    | .response status retryAfter content =>
      if status = 200 then
        { result := .ok content, sleeps := sleeps, fetches := calls + 1 }
      else if status = 202 then
        getDataGo transport delay fuel (calls + 1) content (sleeps ++ [(delay : Int)])
      else if status = 429 then
        match retryAfter with
        | none =>
          getDataGo transport delay fuel (calls + 1) content (sleeps ++ [(delay : Int)])
        | some s =>
          match pyInt? s with
          | none =>
            { result := .error (.valueError (intErrMsg s)), sleeps := sleeps,
              fetches := calls + 1 }
          | some n =>
            getDataGo transport delay fuel (calls + 1) content (sleeps ++ [n])
      else
        { result := .error (.httpError status), sleeps := sleeps, fetches := calls + 1 }

/-- get_data with its transport abstracted: run the retry loop from
attempts = 0 (fuel = retries + 1), no calls made, the initial empty
response, and no sleeps performed. -/
def get_data (transport : Nat → Outcome) (retries : Nat) (delay : Nat) : GetResult :=
  getDataGo transport delay (retries + 1) 0 [] []

/-- An outcome on which the get_data loop retries: a read timeout, a 202, or
a 429 whose Retry-After header is absent or parses as an integer. -/
def retryableOutcome : Outcome → Bool
  | .timeout => true
  | .response status ra _ =>
    status == 202 ||
      (status == 429 &&
        (match ra with
         | none => true
         | some s => (pyInt? s).isSome))

/-- An XML element as exposed by xml.etree.ElementTree: a tag, an ordered
attribute list, and the list of child elements. -/
inductive Element where
  | mk (tag : String) (attrs : List (String × String)) (children : List Element)
  deriving Repr

/-- The tag of an element. -/
def Element.tag : Element → String
  | .mk t _ _ => t

/-- The attribute list of an element. -/
def Element.attrs : Element → List (String × String)
  | .mk _ a _ => a

/-- The child elements of an element. -/
def Element.children : Element → List Element
  | .mk _ _ c => c

/-- Element.get(key) of ElementTree: the value of the first attribute named
key, or None when the element has no such attribute. -/
def Element.get (e : Element) (key : String) : Option String :=
  (e.attrs.find? (fun p => p.1 == key)).map Prod.snd

/-- root.findall(tag) for a plain tag path, as used with the path play in
download_play_data: the direct children whose tag matches. -/
def Element.findall (e : Element) (t : String) : List Element :=
  e.children.filter (fun c => c.tag == t)

mutual

/-- An element followed by all its descendants, depth-first (document
order). -/
def elemSubtree : Element → List Element
  | .mk t a cs => .mk t a cs :: forestSubtrees cs

/-- All elements of the given forest in document order, each followed by
its descendants. -/
def forestSubtrees : List Element → List Element
  | [] => []
  | e :: rest => elemSubtree e ++ forestSubtrees rest

end

/-- root.findall of a descendant path with an attribute-presence filter, as
used with the path .//item[@objectid] in download_collection_data: every
descendant of root (root excluded) whose tag is t and which carries the
attribute a, in document order. -/
def Element.findallDescAttr (e : Element) (t a : String) : List Element :=
  (forestSubtrees e.children).filter (fun c => c.tag == t && (c.get a).isSome)

/-- inspect_data, with ET.fromstring abstracted as the external parser
oracle fromstring: propagate its ParseError, then compare the root tag with
the expected value, raising ValueError on mismatch and returning the parsed
root otherwise. -/
def inspect_data (fromstring : Bytes → Except PyErr Element) (data : Bytes)
    (root_tag : String) : Except PyErr Element :=
  match fromstring data with
  | .error e => .error e
  | .ok root =>
    if root.tag ≠ root_tag then
      .error (.valueError ("Unexpected root tag: " ++ root.tag ++ ", expected: " ++ root_tag))
    else
      .ok root

/-- The identifier-extraction loop of download_collection_data over the items
selected by root.findall with path .//item[@objectid]: for each selected
item, read its objectid attribute, raise ValueError if it is None, parse it
with int() (ValueError on a bad literal), and append it to the accumulated
list. -/
def extractLoop : List Element → List Int → Except PyErr (List Int)
  | [], acc => .ok acc
  | item :: rest, acc =>
    match item.get "objectid" with
    | none => .error (.valueError "None value found in objectid")
    | some s =>
      match pyInt? s with
      | none => .error (.valueError (intErrMsg s))
      | some n => extractLoop rest (acc ++ [n])

/-- Identifier extraction of download_collection_data over one validated
collection root (the body of the for item loop). -/
def extract_item_ids (root : Element) : Except PyErr (List Int) :=
  extractLoop (root.findallDescAttr "item" "objectid") []

/-- The identifier an item contributes: its objectid attribute value parsed
by int(), or none when the attribute is absent or its value is not an
integer literal. -/
def objectidVal (e : Element) : Option Int :=
  (e.get "objectid").bind pyInt?

/-- Python range(start, stop, step) for a positive step. -/
def pyRange (start stop step : Nat) : List Nat :=
  List.range' start ((stop - start + step - 1) / step) step

/-- One iteration of the batch loop of download_thing_data: the 1-indexed
batch number (placed in the file name thing/batch_N.xml) and the identifier
slice fetched and written in that iteration. -/
structure BatchWrite where
  batchNum : Nat
  batchIds : List Int
  deriving Repr, DecidableEq

/-- The batch loop of download_thing_data: for i in
range(0, len(thing_ids), batch_size), batch number i / batch_size + 1 and
batch thing_ids[i : i + batch_size]. Each iteration performs exactly one
fetch and one file write (fetch or validation failures propagate and are
outside this trace). -/
def download_thing_data (thing_ids : List Int) (batch_size : Nat) : List BatchWrite :=
  (pyRange 0 thing_ids.length batch_size).map
    (fun i => { batchNum := i / batch_size + 1,
                batchIds := (thing_ids.drop i).take batch_size })

/-- Observable result of download_play_data: the page numbers written to
disk (page N goes to plays/page_N.xml), in order, and the number of fetches
issued. -/
structure PlayResult where
  written : List Nat
  fetches : Nat
  deriving Repr, DecidableEq

/-- The pagination loop of download_play_data, with fetch plus validation
abstracted as the oracle pages giving the validated root of each page.
Starting at page 1: fetch the page; if root.findall(play) is empty, stop
without writing; otherwise write the page and move to the next. The Python
loop is unbounded, so the embedding is fuel-indexed: none means the loop
has not terminated within fuel iterations. -/
def playGo (pages : Nat → Element) : Nat → Nat → List Nat → Nat → Option PlayResult
  | 0, _, _, _ => none
  | fuel + 1, page, written, fetches =>
    if ((pages page).findall "play").isEmpty then
      some { written := written, fetches := fetches + 1 }
    else
      playGo pages fuel (page + 1) (written ++ [page]) (fetches + 1)

/-- download_play_data: run the pagination loop from page 1 with nothing
written and no fetches issued. -/
def download_play_data (pages : Nat → Element) (fuel : Nat) : Option PlayResult :=
  playGo pages fuel 1 [] 0

/-- Content of the response variable after the outcomes of calls
start, start + 1, ..., start + n - 1: a timeout leaves it unchanged, a
completed response overwrites it. -/
def foldContent (transport : Nat → Outcome) : Nat → Nat → Bytes → Bytes
  | _, 0, acc => acc
  | start, n + 1, acc =>
    foldContent transport (start + 1) n
      (match transport start with
       | .timeout => acc
       | .response _ _ c => c)

/-- A transport whose every session.get call raises ReadTimeout. -/
def timeoutTransport : Nat → Outcome :=
  fun _ => Outcome.timeout

/-- A transport whose every call completes with 429 and Retry-After 7. -/
def transport429Seven : Nat → Outcome :=
  fun _ => Outcome.response 429 (some "7") []

/-- A transport whose every call completes with status 500 and no headers. -/
def transport500 : Nat → Outcome :=
  fun _ => Outcome.response 500 none []

/-- A transport whose every call completes with 429 and an HTTP-date
Retry-After value, as permitted by the header syntax. -/
def transport429Date : Nat → Outcome :=
  fun _ => Outcome.response 429 (some "Wed, 21 Oct 2015 07:28:00 GMT") []

/-- The identifier list 0, 1, ..., 24, used to exercise the batch driver. -/
def idList25 : List Int :=
  (List.range 25).map (fun n => (n : Int))

/-- A page oracle: pages 1 and 2 hold one play element, page 3 and beyond
hold none. -/
def pagesTwo : Nat → Element :=
  fun k => if k ≤ 2 then Element.mk "plays" [] [Element.mk "play" [] []]
           else Element.mk "plays" [] []

/-- A parser oracle that succeeds with a root tagged match on any input. -/
def parserMatch : Bytes → Except PyErr Element :=
  fun _ => Except.ok (Element.mk "match" [] [])

/-- A parser oracle that fails on any input the way expat fails on the empty
byte string. -/
def parserEmptyFail : Bytes → Except PyErr Element :=
  fun _ => Except.error (PyErr.parseError "no element found: line 1, column 0")

/-- A validated collection root holding a single item element that carries
no objectid attribute. -/
def rootNoObjectid : Element :=
  Element.mk "items" [] [Element.mk "item" [] []]

/-- A validated collection root mixing items with and without the objectid
attribute. -/
def rootMixed : Element :=
  Element.mk "items" []
    [Element.mk "item" [("objectid", "5")] [],
     Element.mk "item" [] [],
     Element.mk "item" [("objectid", "7")] []]

/-!
Helper lemmas about the retry loop, then one theorem per claim.
-/

/-- When every outcome the loop can still consume is one it retries on, the
loop runs to exhaustion and returns the content of the response variable
after all those outcomes. -/
theorem getDataGo_all_retryable (transport : Nat → Outcome) (delay : Nat) :
    ∀ (fuel calls : Nat) (last : Bytes) (sleeps : List Int),
      (∀ k, calls ≤ k → k < calls + fuel → retryableOutcome (transport k) = true) →
      (getDataGo transport delay fuel calls last sleeps).result =
        Except.ok (foldContent transport calls fuel last) := by
  intro fuel
  induction fuel with
  | zero =>
    intro calls last sleeps _
    simp [getDataGo, foldContent]
  | succ n ih =>
    intro calls last sleeps h
    have hc := h calls (Nat.le_refl _) (by omega)
    have hrest : ∀ k, calls + 1 ≤ k → k < calls + 1 + n →
        retryableOutcome (transport k) = true := by
      intro k h1 h2
      exact h k (by omega) (by omega)
    cases ho : transport calls with
    | timeout =>
      simp only [getDataGo, ho, foldContent]
      exact ih (calls + 1) last (sleeps ++ [(delay : Int)]) hrest
    | response status ra content =>
      rw [ho] at hc
      simp only [retryableOutcome, Bool.or_eq_true, Bool.and_eq_true, beq_iff_eq] at hc
      rcases hc with h202 | ⟨h429, hra⟩
      · subst h202
        simp only [getDataGo, ho, foldContent]
        norm_num
        exact ih (calls + 1) content (sleeps ++ [(delay : Int)]) hrest
      · subst h429
        cases ra with
        | none =>
          simp only [getDataGo, ho, foldContent]
          norm_num
          exact ih (calls + 1) content (sleeps ++ [(delay : Int)]) hrest
        | some s =>
          obtain ⟨n429, hn⟩ := Option.isSome_iff_exists.mp hra
          simp only [getDataGo, ho, foldContent, hn]
          norm_num
          exact ih (calls + 1) content (sleeps ++ [n429]) hrest

/-- A stretch of outcomes that are all timeouts leaves the response variable
unchanged. -/
theorem foldContent_timeout (transport : Nat → Outcome) :
    ∀ (n start : Nat) (acc : Bytes),
      (∀ k, start ≤ k → k < start + n → transport k = Outcome.timeout) →
      foldContent transport start n acc = acc := by
  intro n
  induction n with
  | zero =>
    intro start acc _
    simp [foldContent]
  | succ m ih =>
    intro start acc h
    have h0 := h start (Nat.le_refl _) (by omega)
    simp only [foldContent, h0]
    exact ih (start + 1) acc (fun k h1 h2 => h k (by omega) (by omega))

/-- C1: when every attempt of a single get_data call, up to the attempt
counter exceeding the maximum retry count, ends in an outcome the loop
retries on (read timeout, status 202, or status 429 with an absent or
integer-valued Retry-After header), no retries-exhausted error is raised:
the loop simply exits after the bound and get_data returns normally with
the content of the last response received, which is the initial empty
response when every attempt timed out. -/
theorem c1_exhaustion_returns_last_content (transport : Nat → Outcome)
    (retries delay : Nat)
    (h : ∀ k, k ≤ retries → retryableOutcome (transport k) = true) :
    (get_data transport retries delay).result =
      Except.ok (foldContent transport 0 (retries + 1) []) ∧
    ((∀ k, k ≤ retries → transport k = Outcome.timeout) →
      (get_data transport retries delay).result = Except.ok []) := by
  have hmain := getDataGo_all_retryable transport delay (retries + 1) 0 [] []
    (fun k _ h2 => h k (by omega))
  have hgoal : (get_data transport retries delay).result =
      Except.ok (foldContent transport 0 (retries + 1) []) := hmain
  refine ⟨hgoal, fun ht => ?_⟩
  rw [hgoal, foldContent_timeout transport (retries + 1) 0 []
    (fun k _ h2 => ht k (by omega))]

/-- Witness for C1: with retry bound 2, a transport that always times out
makes get_data return the empty initial content without error. -/
theorem c1_exhaustion_witness :
    (get_data timeoutTransport 2 5).result = Except.ok [] :=
  (c1_exhaustion_returns_last_content timeoutTransport 2 5 (fun _ _ => rfl)).2
    (fun _ _ => rfl)

/-- C2: on a 429 (Too Many Requests) outcome with the attempt counter not
yet exhausted, the loop sleeps, before the next attempt, exactly the
integer value of the Retry-After response header when that header is
present, and exactly the fixed default delay when it is absent, then
retries with the attempt counter incremented. -/
theorem c2_rate_limited_sleep (transport : Nat → Outcome) (delay : Nat)
    (fuel calls : Nat) (last : Bytes) (sleeps : List Int) (ra : Option String)
    (content : Bytes) (n : Int)
    (hcall : transport calls = Outcome.response 429 ra content)
    (hn : (match ra with
           | none => some ((delay : Int))
           | some s => pyInt? s) = some n) :
    getDataGo transport delay (fuel + 1) calls last sleeps =
      getDataGo transport delay fuel (calls + 1) content (sleeps ++ [n]) := by
  cases ra with
  | none =>
    have hn2 : some ((delay : Int)) = some n := hn
    simp only [Option.some.injEq] at hn2
    subst hn2
    simp [getDataGo, hcall]
  | some s =>
    have hn2 : pyInt? s = some n := hn
    simp [getDataGo, hcall, hn2]

/-- Witness for C2: a 429 with Retry-After 7 sleeps exactly 7, not the
default delay of 5, before retrying. -/
theorem c2_rate_limited_witness :
    getDataGo transport429Seven 5 1 0 [] [] =
      getDataGo transport429Seven 5 0 1 [] [(7 : Int)] :=
  c2_rate_limited_sleep transport429Seven 5 0 0 [] [] (some "7") [] 7 rfl rfl

/-- C3: on a response whose status is not 200, 202 or 429, get_data fails
immediately: it raises an HTTPError carrying that status code, performs no
sleep (the sleep trace is unchanged) and issues no further attempt (the
call being processed is the last fetch). -/
theorem c3_fatal_http_status (transport : Nat → Outcome) (delay : Nat)
    (fuel calls : Nat) (last : Bytes) (sleeps : List Int) (status : Nat)
    (ra : Option String) (content : Bytes)
    (hcall : transport calls = Outcome.response status ra content)
    (h200 : status ≠ 200) (h202 : status ≠ 202) (h429 : status ≠ 429) :
    getDataGo transport delay (fuel + 1) calls last sleeps =
      { result := Except.error (PyErr.httpError status), sleeps := sleeps,
        fetches := calls + 1 } := by
  simp [getDataGo, hcall, h200, h202, h429]

/-- Witness for C3: a first-attempt 500 raises HTTPError 500 with no sleep
and exactly one fetch, even with ten retries of budget left. -/
theorem c3_fatal_witness :
    getDataGo transport500 5 11 0 [] [] =
      { result := Except.error (PyErr.httpError 500), sleeps := [], fetches := 1 } :=
  c3_fatal_http_status transport500 5 10 0 [] [] 500 none []
    rfl (by decide) (by decide) (by decide)

/-- C10: a 429 outcome whose Retry-After header does not parse as a decimal
integer is not retried: the unguarded int() conversion raises an unhandled
ValueError, with no sleep performed and no further attempt issued. -/
theorem c10_unparseable_retry_after (transport : Nat → Outcome) (delay : Nat)
    (fuel calls : Nat) (last : Bytes) (sleeps : List Int) (s : String)
    (content : Bytes)
    (hcall : transport calls = Outcome.response 429 (some s) content)
    (hbad : pyInt? s = none) :
    getDataGo transport delay (fuel + 1) calls last sleeps =
      { result := Except.error (PyErr.valueError (intErrMsg s)), sleeps := sleeps,
        fetches := calls + 1 } := by
  simp [getDataGo, hcall, hbad]

/-- Witness for C10: a 429 carrying an HTTP-date Retry-After value raises
ValueError at once instead of sleeping and retrying. -/
theorem c10_unparseable_witness :
    getDataGo transport429Date 5 11 0 [] [] =
      { result := Except.error
          (PyErr.valueError (intErrMsg "Wed, 21 Oct 2015 07:28:00 GMT")),
        sleeps := [], fetches := 1 } :=
  c10_unparseable_retry_after transport429Date 5 10 0 [] []
    "Wed, 21 Oct 2015 07:28:00 GMT" [] rfl (by decide)

/-- Bound on the observable work of the retry loop: starting with the given
sleep trace and call count, at most fuel further sleeps and at most fuel
further calls happen. -/
theorem getDataGo_bounds (transport : Nat → Outcome) (delay : Nat) :
    ∀ (fuel calls : Nat) (last : Bytes) (sleeps : List Int),
      (getDataGo transport delay fuel calls last sleeps).sleeps.length ≤
        sleeps.length + fuel ∧
      (getDataGo transport delay fuel calls last sleeps).fetches ≤ calls + fuel := by
  intro fuel
  induction fuel with
  | zero =>
    intro calls last sleeps
    simp [getDataGo]
  | succ m ih =>
    intro calls last sleeps
    have key : ∀ (l : Bytes) (x : Int),
        (getDataGo transport delay m (calls + 1) l (sleeps ++ [x])).sleeps.length ≤
          sleeps.length + (m + 1) ∧
        (getDataGo transport delay m (calls + 1) l (sleeps ++ [x])).fetches ≤
          calls + (m + 1) := by
      intro l x
      obtain ⟨h1, h2⟩ := ih (calls + 1) l (sleeps ++ [x])
      simp only [List.length_append, List.length_singleton] at h1
      exact ⟨by omega, by omega⟩
    cases ho : transport calls with
    | timeout =>
      simp only [getDataGo, ho]
      exact key last _
    | response status ra content =>
      simp only [getDataGo, ho]
      by_cases h200 : status = 200
      · simp only [h200, if_pos rfl]
        constructor <;> simp
      · by_cases h202 : status = 202
        · simp only [if_neg h200, h202, if_pos rfl]
          exact key content _
        · by_cases h429 : status = 429
          · simp only [if_neg h200, if_neg h202, h429, if_pos rfl]
            cases ra with
            | none =>
              exact key content _
            | some s =>
              cases hp : pyInt? s with
              | none =>
                simp only [hp]
                constructor <;> simp
              | some k =>
                simp only [hp]
                exact key content _
          · simp only [if_neg h200, if_neg h202, if_neg h429]
            constructor <;> simp

/-- C4 counterexample: with maximum retry count 0, a transport that always
times out still produces one retryable failure (one sleep of the delay and
one fetch), so more retryable failures than the maximum retry count occur. -/
theorem c4_counterexample :
    (get_data timeoutTransport 0 5).sleeps = [(5 : Int)] ∧
    (get_data timeoutTransport 0 5).sleeps.length = 1 ∧
    (get_data timeoutTransport 0 5).fetches = 1 := by
  decide

/-- C4 amended: within a single get_data call one shared attempt counter
counts all three retryable conditions (read timeout, 202, 429) together and
bounds the loop, which therefore always terminates; the bound on retryable
failures is the maximum retry count plus one, not the maximum retry count:
at most retries + 1 retryable failures (each contributing its one sleep)
and at most retries + 1 transport calls occur. -/
theorem c4_amended_shared_counter_bound (transport : Nat → Outcome)
    (retries delay : Nat) :
    (get_data transport retries delay).sleeps.length ≤ retries + 1 ∧
    (get_data transport retries delay).fetches ≤ retries + 1 := by
  have h := getDataGo_bounds transport delay (retries + 1) 0 [] []
  simpa [get_data] using h

/-- C5: with an identifier list of length N and batch size 20, the
thing-batch driver performs exactly ceil(N/20) = (N + 19) / 20 iterations,
each issuing one fetch and one write; the k-th (0-based) iteration carries
the 1-indexed batch number k + 1 in its file name and the contiguous slice
of at most 20 identifiers starting at 20 * k; the last batch has
N mod 20 identifiers (or 20 when N is a positive multiple of 20); and an
empty identifier list yields zero fetches and zero writes. -/
theorem c5_thing_batching (thing_ids : List Int) :
    (download_thing_data thing_ids 20).length = (thing_ids.length + 19) / 20 ∧
    (∀ k, (hk : k < (download_thing_data thing_ids 20).length) →
      ((download_thing_data thing_ids 20).get ⟨k, hk⟩).batchNum = k + 1 ∧
      ((download_thing_data thing_ids 20).get ⟨k, hk⟩).batchIds =
        (thing_ids.drop (20 * k)).take 20 ∧
      ((download_thing_data thing_ids 20).get ⟨k, hk⟩).batchIds.length ≤ 20) ∧
    (thing_ids.length = 0 → download_thing_data thing_ids 20 = []) ∧
    (0 < thing_ids.length →
      ∃ lb, (download_thing_data thing_ids 20).getLast? = some lb ∧
        lb.batchIds.length =
          if thing_ids.length % 20 = 0 then 20 else thing_ids.length % 20) := by
  have hlen : (download_thing_data thing_ids 20).length =
      (thing_ids.length + 19) / 20 := by
    simp only [download_thing_data, pyRange, List.length_map, List.length_range']
    omega
  have hidx : ∀ k (hk : k < (download_thing_data thing_ids 20).length),
      (download_thing_data thing_ids 20).get ⟨k, hk⟩ =
        { batchNum := k + 1, batchIds := (thing_ids.drop (20 * k)).take 20 } := by
    intro k hk
    have hk2 : k < (pyRange 0 thing_ids.length 20).length := by
      simpa [download_thing_data] using hk
    rw [List.get_eq_getElem]
    simp only [download_thing_data, List.getElem_map]
    simp only [pyRange, List.getElem_range']
    rw [Nat.zero_add, Nat.mul_div_cancel_left k (by norm_num : (0 : Nat) < 20)]
  refine ⟨hlen, ?_, ?_, ?_⟩
  · intro k hk
    rw [hidx k hk]
    refine ⟨rfl, rfl, ?_⟩
    simp only [List.length_take]
    exact min_le_left _ _
  · intro h0
    have : (download_thing_data thing_ids 20).length = 0 := by
      rw [hlen, h0]
    exact List.eq_nil_of_length_eq_zero this
  · intro hpos
    have hk : (thing_ids.length + 19) / 20 - 1 <
        (download_thing_data thing_ids 20).length := by
      rw [hlen]
      omega
    refine ⟨(download_thing_data thing_ids 20).get ⟨(thing_ids.length + 19) / 20 - 1, hk⟩,
      ?_, ?_⟩
    · rw [List.getLast?_eq_getElem?, List.get_eq_getElem]
      have hlast : (download_thing_data thing_ids 20).length - 1 =
          (thing_ids.length + 19) / 20 - 1 := by
        rw [hlen]
      rw [hlast]
      exact List.getElem?_eq_getElem hk
    · rw [hidx _ hk]
      simp only [List.length_take, List.length_drop]
      split
      · next hmod => omega
      · next hmod => omega

/-- Witness for C5: the empty identifier list produces no batches at all,
and 25 identifiers produce ceil(25/20) batches. -/
theorem c5_thing_batching_witness :
    download_thing_data [] 20 = [] ∧
    (download_thing_data idList25 20).length = (idList25.length + 19) / 20 :=
  ⟨(c5_thing_batching []).2.2.1 rfl, (c5_thing_batching idList25).1⟩

/-- Running the pagination loop over a stretch of m non-empty pages followed
by an empty one appends those m page numbers to the written list and issues
m + 1 further fetches. -/
theorem playGo_run (pages : Nat → Element) :
    ∀ (m fuel page : Nat) (written : List Nat) (fetches : Nat),
      m + 1 ≤ fuel →
      (∀ k, page ≤ k → k < page + m → (pages k).findall "play" ≠ []) →
      (pages (page + m)).findall "play" = [] →
      playGo pages fuel page written fetches =
        some { written := written ++ List.range' page m,
               fetches := fetches + m + 1 } := by
  intro m
  induction m with
  | zero =>
    intro fuel page written fetches hfuel _ hend
    obtain ⟨f, rfl⟩ : ∃ f, fuel = f + 1 := ⟨fuel - 1, by omega⟩
    have hend2 : (pages page).findall "play" = [] := by
      simpa using hend
    simp [playGo, hend2]
  | succ j ih =>
    intro fuel page written fetches hfuel hpos hend
    obtain ⟨f, rfl⟩ : ∃ f, fuel = f + 1 := ⟨fuel - 1, by omega⟩
    have hp : (pages page).findall "play" ≠ [] :=
      hpos page (Nat.le_refl _) (by omega)
    have hstep := ih f (page + 1) (written ++ [page]) (fetches + 1) (by omega)
      (fun k h1 h2 => hpos k (by omega) (by omega))
      (by rw [show page + 1 + j = page + (j + 1) from by omega]; exact hend)
    simp only [playGo]
    rw [if_neg (by simpa [List.isEmpty_iff] using hp)]
    rw [hstep]
    simp only [Option.some.injEq, PlayResult.mk.injEq]
    constructor
    · rw [List.range'_succ]
      simp [List.append_assoc]
    · omega

/-- C6: when pages 1 through m each contain at least one play child element
and page m + 1 contains none, the plays driver issues exactly m + 1 fetches
(pages 1 through m + 1 in order), writes exactly the m files for pages 1
through m, and does not write the terminating empty page. -/
theorem c6_plays_pagination (pages : Nat → Element) (m fuel : Nat)
    (hfuel : m + 1 ≤ fuel)
    (hpos : ∀ k, 1 ≤ k → k ≤ m → (pages k).findall "play" ≠ [])
    (hend : (pages (m + 1)).findall "play" = []) :
    download_play_data pages fuel =
      some { written := List.range' 1 m, fetches := m + 1 } := by
  have h := playGo_run pages m fuel 1 [] 0 hfuel
    (fun k h1 h2 => hpos k h1 (by omega))
    (by rw [show 1 + m = m + 1 from by omega]; exact hend)
  simpa [download_play_data] using h

/-- Witness for C6: two non-empty pages followed by an empty page 3 write
pages 1 and 2 and issue three fetches. -/
theorem c6_plays_witness :
    download_play_data pagesTwo 5 =
      some { written := List.range' 1 2, fetches := 3 } :=
  c6_plays_pagination pagesTwo 2 5 (by omega)
    (fun k h1 h2 => by
      interval_cases k
      · simp [pagesTwo, Element.findall, Element.children, Element.tag]
      · simp [pagesTwo, Element.findall, Element.children, Element.tag])
    rfl

/-- C7: for every input the parser accepts (well-formed XML with parsed root
element), inspect_data returns a tree if and only if the root tag equals the
expected tag; any returned tree has the expected root tag, and is the parsed
root itself; and on a differing root tag inspect_data fails with the
root-tag-mismatch ValueError and returns no tree. -/
theorem c7_inspect_root_tag (fromstring : Bytes → Except PyErr Element)
    (data : Bytes) (root : Element) (root_tag : String)
    (hp : fromstring data = Except.ok root) :
    ((∃ r, inspect_data fromstring data root_tag = Except.ok r) ↔ root.tag = root_tag) ∧
    (∀ r, inspect_data fromstring data root_tag = Except.ok r → r.tag = root_tag) ∧
    (root.tag = root_tag → inspect_data fromstring data root_tag = Except.ok root) ∧
    (root.tag ≠ root_tag → inspect_data fromstring data root_tag =
      Except.error (PyErr.valueError
        ("Unexpected root tag: " ++ root.tag ++ ", expected: " ++ root_tag))) := by
  by_cases ht : root.tag = root_tag
  · have hok : inspect_data fromstring data root_tag = Except.ok root := by
      simp [inspect_data, hp, ht]
    refine ⟨⟨fun _ => ht, fun _ => ⟨root, hok⟩⟩, ?_, fun _ => hok,
      fun hne => absurd ht hne⟩
    intro r hr
    rw [hok] at hr
    injection hr with h
    rw [← h]
    exact ht
  · have herr : inspect_data fromstring data root_tag =
        Except.error (PyErr.valueError
          ("Unexpected root tag: " ++ root.tag ++ ", expected: " ++ root_tag)) := by
      simp [inspect_data, hp, ht]
    refine ⟨⟨?_, fun h => absurd h ht⟩, ?_, fun h => absurd h ht, fun _ => herr⟩
    · rintro ⟨r, hr⟩
      rw [herr] at hr
      cases hr
    · intro r hr
      rw [herr] at hr
      cases hr

/-- Witness for C7: a parser returning a root tagged match makes
inspect_data with expected tag match return that root. -/
theorem c7_inspect_witness :
    inspect_data parserMatch [] "match" = Except.ok (Element.mk "match" [] []) :=
  (c7_inspect_root_tag parserMatch [] (Element.mk "match" [] []) "match" rfl).2.2.1 rfl

/-- C8: for every byte input on which the parser fails with a ParseError
(every malformed input, the empty byte string included), inspect_data fails
with that same ParseError whatever the expected root tag is. -/
theorem c8_parse_error_propagates (fromstring : Bytes → Except PyErr Element)
    (data : Bytes) (msg : String)
    (hp : fromstring data = Except.error (PyErr.parseError msg)) :
    ∀ root_tag, inspect_data fromstring data root_tag =
      Except.error (PyErr.parseError msg) := by
  intro root_tag
  unfold inspect_data
  rw [hp]

/-- Witness for C8: the empty byte string, on which expat reports no element
found, makes inspect_data fail with that ParseError. -/
theorem c8_parse_error_witness :
    inspect_data parserEmptyFail [] "empty" =
      Except.error (PyErr.parseError "no element found: line 1, column 0") :=
  c8_parse_error_propagates parserEmptyFail []
    "no element found: line 1, column 0" rfl "empty"

/-- C9 counterexample: on a validated collection root whose only item
element lacks the objectid attribute, the extraction returns the empty
identifier list without raising any error: the attribute-less item is
silently skipped, not reported as a MissingAttributeError. -/
theorem c9_counterexample :
    extract_item_ids rootNoObjectid = Except.ok [] := rfl

/-- The extraction loop over items that all carry a parseable objectid
returns the accumulated identifiers followed by those parsed values. -/
theorem extractLoop_all_parse :
    ∀ (l : List Element) (acc : List Int),
      (∀ e ∈ l, (objectidVal e).isSome = true) →
      extractLoop l acc = Except.ok (acc ++ l.filterMap objectidVal) := by
  intro l
  induction l with
  | nil =>
    intro acc _
    simp [extractLoop]
  | cons e rest ih =>
    intro acc h
    have he := h e (List.mem_cons_self _ _)
    cases hg : e.get "objectid" with
    | none =>
      rw [objectidVal, hg] at he
      simp at he
    | some s =>
      cases hp : pyInt? s with
      | none =>
        rw [objectidVal, hg] at he
        simp [hp] at he
      | some n =>
        simp only [extractLoop, hg, hp]
        rw [ih (acc ++ [n]) (fun x hx => h x (List.mem_cons_of_mem _ hx))]
        simp [List.filterMap_cons, objectidVal, hg, hp]

/-- C9 amended: an item element lacking the objectid attribute is not
selected by the extraction path .//item[@objectid] at all, so the collection
driver silently skips it, contributing no identifier and raising no error;
when every selected objectid value parses as an integer, the driver returns
exactly the identifiers of the attribute-bearing items, and the
missing-attribute ValueError guarding the extraction loop is unreachable. -/
theorem c9_amended_skips_missing_objectid (root : Element)
    (h : ∀ e ∈ root.findallDescAttr "item" "objectid",
      (objectidVal e).isSome = true) :
    extract_item_ids root =
      Except.ok ((root.findallDescAttr "item" "objectid").filterMap objectidVal) := by
  have := extractLoop_all_parse (root.findallDescAttr "item" "objectid") [] h
  simpa [extract_item_ids] using this

/-- Witness for C9: on a root holding items with objectid 5, no objectid,
and objectid 7, extraction succeeds with the list of the two present
identifiers, skipping the attribute-less item. -/
theorem c9_amended_witness :
    extract_item_ids rootMixed = Except.ok [5, 7] := by
  have hsel : rootMixed.findallDescAttr "item" "objectid" =
      [Element.mk "item" [("objectid", "5")] [],
       Element.mk "item" [("objectid", "7")] []] := rfl
  rw [c9_amended_skips_missing_objectid rootMixed (by
    intro e he
    rw [hsel] at he
    simp only [List.mem_cons, List.not_mem_nil, or_false] at he
    rcases he with rfl | rfl <;> rfl), hsel]
  rfl
